import Mathlib

/-!
Shallow embedding of the PdfRearranger component (src/PdfRearrange.jsx).

The component holds six pieces of React state (pdfDoc, pages, pageImages,
selectedPage, rotationAngles, croppedImages; zoomLevel affects only the
crop-preview magnification and no claim mentions it, so it is omitted) and
five handlers: handleFileUpload (with renderPdfPages), onDragEnd,
rotateSelectedPage, handleCrop and handleRearrange.  Each handler is
embedded as a pure function from the session state (plus the inputs the
browser or a collaborator library supplies) to a new session state, or to
an `Except` value when the handler can raise.  JavaScript `%` on integers
is the truncating remainder, embedded as `Int.tmod`.
-/

namespace PdfRearrange

/-- A rendered raster image (a canvas data URL in the source).  `width` and
`height` are the pixel dimensions the embed library reports after
`embedPng`; `uid` distinguishes distinct bitmaps; `readable` records
whether `fetch` + `embedPng` succeed on this raster. -/
structure Image where
  width : Nat
  height : Nat
  uid : Nat
  readable : Bool
deriving DecidableEq, Repr, Inhabited

/-- An uploaded file as seen by the two parser collaborators the source
consults: `libParse` is the outcome of `PDFDocument.load` (the page count,
`none` on parse error) and `jsRender` is the outcome of
`pdfjsLib.getDocument` followed by the per-page render loop in
`renderPdfPages` (the list of rendered rasters, `none` on error).  The two
libraries parse the same bytes independently, each inside its own
try/catch, so their outcomes are modelled as independent fields. -/
structure PdfFile where
  libParse : Option Nat
  jsRender : Option (List Image)
deriving DecidableEq, Repr

/-- The React state of the component: `pdfDoc` (abstracted to its page
count), `pages` (the Page List of original page identifiers),
`pageImages` (the Raster Cache), `selectedPage`, `rotationAngles`
(degrees, indexed by page identifier) and `croppedImages` (crop
overrides, indexed by page identifier). -/
structure SessionState where
  pdfDoc : Option Nat
  pages : List Nat
  pageImages : List Image
  selectedPage : Option Nat
  rotationAngles : List Int
  croppedImages : List (Option Image)
deriving DecidableEq, Repr

/-- handleFileUpload (lines 18-33) together with renderPdfPages
(lines 35-57).  With no file it returns at once.  If `PDFDocument.load`
throws, the catch in handleFileUpload runs before any setter, so the state
is untouched.  Otherwise pdfDoc, pages, rotationAngles and croppedImages
are set from the new page count, and renderPdfPages is called: its own
try/catch means a render failure leaves pageImages untouched while the
four setters above have already run. -/
def handleFileUpload (s : SessionState) (file : Option PdfFile) : SessionState :=
  match file with
  | none => s
  | some f =>
    match f.libParse with
    | none => s
    | some pageCount =>
      let s1 : SessionState :=
        { s with
          pdfDoc := some pageCount
          pages := List.range pageCount
          rotationAngles := List.replicate pageCount 0
          croppedImages := List.replicate pageCount none }
      match f.jsRender with
      | none => s1
      | some imgs => { s1 with pageImages := imgs }

/-- onDragEnd (lines 97-103).  With no destination (cancelled drag) it
returns at once; otherwise it splices the entry at the source position out
of the Page List and splices it back in at the destination position.  The
`getD` default is never read when the source position is in bounds, which
the drag collaborator guarantees. -/
def onDragEnd (s : SessionState) (sourceIdx : Nat) (destIdx : Option Nat) :
    SessionState :=
  match destIdx with
  | none => s
  | some d =>
    { s with pages := (s.pages.eraseIdx sourceIdx).insertIdx d (s.pages.getD sourceIdx 0) }

/-- setSelectedPage, invoked from the page tile onClick (line 166) with the
page identifier of the clicked tile. -/
def selectPage (s : SessionState) (pid : Nat) : SessionState :=
  { s with selectedPage := some pid }

/-- rotateSelectedPage (lines 105-111).  With no selection it returns at
once; otherwise it replaces the selected page identifier's entry of
rotationAngles by `(old + angle) % 360`, where `%` is the JavaScript
truncating remainder (`Int.tmod`).  The `getD` default is never read when
the selection is in bounds. -/
def rotateSelectedPage (s : SessionState) (angle : Int) : SessionState :=
  match s.selectedPage with
  | none => s
  | some p =>
    { s with
      rotationAngles := s.rotationAngles.set p ((s.rotationAngles.getD p 0 + angle).tmod 360) }

/-- handleCrop (lines 113-124).  The handler reads `cropperRef.current.cropper`
unconditionally; the Cropper element is rendered only under the
`selectedPage !== null` guard (line 184), so when no page is selected
`cropperRef.current` is null and the access throws a TypeError before any
state is written.  With a selection, the collaborator's cropped raster
(`cropResult`) is written both into croppedImages and into pageImages at
the selected identifier. -/
def handleCrop (s : SessionState) (cropResult : Image) : Except String SessionState :=
  match s.selectedPage with
  | none => Except.error "TypeError: cropperRef.current is null"
  | some p =>
    Except.ok
      { s with
        croppedImages := s.croppedImages.set p (some cropResult)
        pageImages := s.pageImages.set p cropResult }

/-- Source image handed to the Cropper element (line 187):
`pageImages[selectedPage]`. -/
def cropSource (s : SessionState) : Option Image :=
  s.selectedPage.bind fun p => s.pageImages[p]?

/-- Raster chosen for a page identifier during export (line 66):
`croppedImages[pageIndex] || pageImages[pageIndex]` — the crop override
when present, otherwise the original raster; `none` when neither exists. -/
def effectiveRaster (s : SessionState) (pid : Nat) : Option Image :=
  (s.croppedImages.getD pid none).or s.pageImages[pid]?

/-- One page of the output document built by handleRearrange: the page is
added with size `[width, height]` taken from the embedded image, and the
image is drawn at x = 0, y = 0 with rotation `rotateDeg * (π / 180)`
radians.  The rotation is recorded in degrees; its radian value is
`(rotateDeg : ℝ) * Real.pi / 180`. -/
structure OutPage where
  width : Nat
  height : Nat
  image : Image
  x : Nat
  y : Nat
  rotateDeg : Int
deriving DecidableEq, Repr, Inhabited

/-- One iteration of the export loop (lines 64-80) for page identifier
`pid`: look up the effective raster, fetch and embed it (which fails when
it is missing or unreadable), then add a page of the raster's dimensions
with the raster drawn at the origin and the stored angle as rotation. -/
def buildPage (s : SessionState) (pid : Nat) : Except String OutPage :=
  match effectiveRaster s pid with
  | none => Except.error "fetch failed: raster missing"
  | some img =>
    if img.readable then
      Except.ok
        { width := img.width
          height := img.height
          image := img
          x := 0
          y := 0
          rotateDeg := s.rotationAngles.getD pid 0 }
    else Except.error "embedPng failed: raster unreadable"

/-- The OutPage produced for identifier `pid` when its effective raster
exists and is readable (the Except.ok branch of `buildPage`). -/
def builtPage (s : SessionState) (pid : Nat) : OutPage :=
  match effectiveRaster s pid with
  | none => default
  | some img =>
    { width := img.width
      height := img.height
      image := img
      x := 0
      y := 0
      rotateDeg := s.rotationAngles.getD pid 0 }

/-- Export loop of handleRearrange (lines 64-81): one output page per Page
List entry, in Page List order; the first failing iteration aborts the
whole loop with its error. -/
def exportPages (s : SessionState) : List Nat → Except String (List OutPage)
  | [] => Except.ok []
  | pid :: rest =>
    match buildPage s pid with
    | Except.error e => Except.error e
    | Except.ok pg =>
      match exportPages s rest with
      | Except.error e => Except.error e
      | Except.ok pgs => Except.ok (pg :: pgs)

/-- handleRearrange (lines 59-95).  With no loaded document it returns at
once (no output).  Otherwise it walks the Page List in order, building one
output page per entry; the whole loop sits inside a single try, so the
first failing page aborts the export with an error.  Only on success do
save + download run. -/
def handleRearrange (s : SessionState) : Except String (List OutPage) :=
  match s.pdfDoc with
  | none => Except.error "no document loaded"
  | some _ => exportPages s s.pages

/-- True when the export reaches the download branch (lines 83-91): the
blob is assembled and the synthetic anchor click offers it to the user.
A thrown error is caught at line 92 before any of that happens. -/
def exportOffered (s : SessionState) : Bool :=
  match handleRearrange s with
  | Except.ok _ => true
  | Except.error _ => false

/-- Effective raster for `pid` is either missing or unreadable, so the
export step for `pid` fails. -/
def rasterBad (s : SessionState) (pid : Nat) : Bool :=
  match effectiveRaster s pid with
  | none => true
  | some img => !img.readable

/-- True when handleCrop terminates normally (no exception thrown). -/
def cropSucceeded (s : SessionState) (img : Image) : Bool :=
  match handleCrop s img with
  | Except.ok _ => true
  | Except.error _ => false

/- Concrete states and files used by witnesses and counterexamples. -/

/-- A sample readable raster, 100 by 200 pixels. -/
def imgA : Image := ⟨100, 200, 0, true⟩

/-- A sample readable raster, 50 by 60 pixels. -/
def imgB : Image := ⟨50, 60, 1, true⟩

/-- A sample readable raster, 30 by 40 pixels. -/
def imgC : Image := ⟨30, 40, 2, true⟩

/-- A sample cropped raster, 20 by 25 pixels. -/
def imgD : Image := ⟨20, 25, 4, true⟩

/-- The component state before any upload. -/
def sEmpty : SessionState := ⟨none, [], [], none, [], []⟩

/-- A session with a loaded 3-page document, reordered Page List, a
selection, a nonzero rotation and a crop override. -/
def sPre : SessionState :=
  ⟨some 3, [2, 0, 1], [imgA, imgB, imgC], some 5, [180, 0, 0], [some imgC, none, none]⟩

/-- A 2-page file that both parsers accept. -/
def fGood : PdfFile := ⟨some 2, some [imgA, imgB]⟩

/-- A file `PDFDocument.load` accepts but the render parser rejects. -/
def fRenderFail : PdfFile := ⟨some 2, none⟩

/-- A file `PDFDocument.load` rejects. -/
def fParseFail : PdfFile := ⟨none, none⟩

/-- A loaded 2-page session with no selection. -/
def sNoSel : SessionState := ⟨some 2, [0, 1], [imgA, imgB], none, [0, 0], [none, none]⟩

/-- A loaded 2-page session with page 0 selected, a reordered Page List,
a rotation on page 1 and a crop override on page 0. -/
def sSel0 : SessionState :=
  ⟨some 2, [1, 0], [imgA, imgB], some 0, [0, 90], [some imgC, none]⟩

/-- The state sSel0 after cropping page 0 to imgD. -/
def sAfterCrop : SessionState :=
  ⟨some 2, [1, 0], [imgD, imgB], some 0, [0, 90], [some imgD, none]⟩

/-- A 1-page session with page 0 selected and stored angle 45. -/
def sRot : SessionState := ⟨some 1, [0], [imgA], some 0, [45], [none]⟩

/-- A loaded 2-page session whose Page List references identifier 1 while
the Raster Cache only holds a raster for identifier 0. -/
def sMissing : SessionState := ⟨some 2, [0, 1], [imgA], none, [0, 0], [none, none]⟩

/-- A loaded 2-page session with all rasters present and readable, used to
exercise the export contract. -/
def sExport : SessionState :=
  ⟨some 2, [1, 0], [imgA, imgB], none, [0, 90], [none, some imgC]⟩

/-- C2 (counterexample): a successful load of a 2-page file from a session
whose selection is page identifier 5 leaves the selection at `some 5`
instead of clearing it — handleFileUpload never writes selectedPage. -/
theorem load_keeps_stale_selection :
    (handleFileUpload sPre (some fGood)).selectedPage = some 5 ∧
    (handleFileUpload sPre (some fGood)).selectedPage ≠ none := by decide

/-- C2 (amended): a successful load of a file with n pages resets the Page
List to the identity permutation on [0, n), every rotation angle to 0,
every crop override to absent, and the Raster Cache to the fresh renders —
but the selection keeps its prior value; it is not cleared. -/
theorem load_resets_transforms_not_selection (s : SessionState) (f : PdfFile)
    (n : Nat) (imgs : List Image)
    (hl : f.libParse = some n) (hr : f.jsRender = some imgs) :
    handleFileUpload s (some f) =
      { pdfDoc := some n
        pages := List.range n
        pageImages := imgs
        selectedPage := s.selectedPage
        rotationAngles := List.replicate n 0
        croppedImages := List.replicate n none } := by
  simp [handleFileUpload, hl, hr]

/-- Witness for the amended C2 theorem at the concrete state sPre and the
concrete 2-page file fGood. -/
theorem load_resets_transforms_not_selection_witness :
    handleFileUpload sPre (some fGood) =
      { pdfDoc := some 2
        pages := List.range 2
        pageImages := [imgA, imgB]
        selectedPage := sPre.selectedPage
        rotationAngles := List.replicate 2 0
        croppedImages := List.replicate 2 none } :=
  load_resets_transforms_not_selection sPre fGood 2 [imgA, imgB] rfl rfl

/-- C3 (counterexample): for the file fRenderFail, whose bytes
`PDFDocument.load` accepts but whose render-side parse by
`pdfjsLib.getDocument` fails, the load attempt from state sPre mutates the
session — the Page List, document, rotation angles and crop overrides are
replaced — while the Raster Cache alone keeps its pre-load value, so the
claim that a failed load leaves every piece of state untouched is false. -/
theorem render_failure_mutates_state :
    handleFileUpload sPre (some fRenderFail) ≠ sPre ∧
    (handleFileUpload sPre (some fRenderFail)).pages ≠ sPre.pages ∧
    (handleFileUpload sPre (some fRenderFail)).pageImages = sPre.pageImages := by decide

/-- C3 (amended): when `PDFDocument.load` rejects the file (or no file is
chosen) the session is exactly as before the load attempt; but when
`PDFDocument.load` succeeds and only the subsequent render parse fails,
the Page List, rotation angles, crop overrides and document are still
reset to the new document's initial values and only the Raster Cache
keeps its pre-load value. -/
theorem load_failure_contract (s : SessionState) (f : PdfFile) :
    handleFileUpload s none = s ∧
    (f.libParse = none → handleFileUpload s (some f) = s) ∧
    (∀ n, f.libParse = some n → f.jsRender = none →
      handleFileUpload s (some f) =
        { pdfDoc := some n
          pages := List.range n
          pageImages := s.pageImages
          selectedPage := s.selectedPage
          rotationAngles := List.replicate n 0
          croppedImages := List.replicate n none }) := by
  refine ⟨rfl, fun h => ?_, fun n hl hr => ?_⟩
  · simp [handleFileUpload, h]
  · simp [handleFileUpload, hl, hr]

/-- Witness for the amended C3 theorem: a file rejected by
`PDFDocument.load` leaves the concrete state sPre unchanged. -/
theorem load_failure_contract_witness :
    handleFileUpload sPre (some fParseFail) = sPre :=
  (load_failure_contract sPre fParseFail).2.1 rfl

/-- C5 (confirmed): with page p selected and in bounds, rotateSelectedPage
delta replaces the stored angle a of p by `(a + delta) % 360` — `%` being
the truncating remainder of the JavaScript `%` operator, `Int.tmod`, which
is what the spec means by mod given that it allows negative stored
angles — and leaves every other page's angle unchanged; with no selection
it leaves the state unchanged. -/
theorem rotate_contract (s : SessionState) (delta : Int) :
    (s.selectedPage = none → rotateSelectedPage s delta = s) ∧
    (∀ p, s.selectedPage = some p → p < s.rotationAngles.length →
      (rotateSelectedPage s delta).rotationAngles.getD p 0 =
        (s.rotationAngles.getD p 0 + delta).tmod 360 ∧
      ∀ q, q ≠ p →
        (rotateSelectedPage s delta).rotationAngles.getD q 0 =
          s.rotationAngles.getD q 0) := by
  constructor
  · intro h
    simp [rotateSelectedPage, h]
  · intro p hp hlen
    constructor
    · simp [rotateSelectedPage, hp, List.getD_eq_getElem?_getD,
        List.getElem?_set_self hlen]
    · intro q hq
      simp [rotateSelectedPage, hp, List.getD_eq_getElem?_getD,
        List.getElem?_set_ne (Ne.symm hq)]

/-- Witness for C5 at the concrete state sRot (selected page 0, stored
angle 45) with delta 90, and at sNoSel (no selection). -/
theorem rotate_contract_witness :
    (rotateSelectedPage sRot 90).rotationAngles.getD 0 0 =
      (sRot.rotationAngles.getD 0 0 + 90).tmod 360 ∧
    rotateSelectedPage sNoSel 90 = sNoSel :=
  ⟨((rotate_contract sRot 90).2 0 rfl (by decide)).1,
    (rotate_contract sNoSel 90).1 rfl⟩

/-- C7 (counterexample): invoking the crop action on the concrete
no-selection state sNoSel does not terminate normally — the handler reads
`cropperRef.current.cropper` while the Cropper element is unmounted, so a
TypeError is thrown — even though no state is written. -/
theorem crop_no_selection_throws :
    cropSucceeded sNoSel imgC = false ∧
    handleCrop sNoSel imgC =
      Except.error "TypeError: cropperRef.current is null" := ⟨by decide, rfl⟩

/-- C7 (amended): with no page selected the crop action writes no session
state, but it does not terminate normally: the crop control is only
rendered when a page is selected, and invoking the handler anyway throws a
TypeError on the null Cropper reference before reaching any state update. -/
theorem crop_without_selection_fails (s : SessionState) (img : Image)
    (h : s.selectedPage = none) :
    handleCrop s img = Except.error "TypeError: cropperRef.current is null" ∧
    cropSucceeded s img = false := by
  simp [handleCrop, cropSucceeded, h]

/-- Witness for the amended C7 theorem at the concrete state sNoSel. -/
theorem crop_without_selection_fails_witness :
    handleCrop sNoSel imgD = Except.error "TypeError: cropperRef.current is null" ∧
    cropSucceeded sNoSel imgD = false :=
  crop_without_selection_fails sNoSel imgD rfl

/-- C8 (confirmed): cropping with page p selected overwrites the crop
override and displayed raster of p with the new raster, and for every
other page q the displayed raster, crop override and rotation angle are
unchanged; the Page List, the rotation angle array and the selection are
unchanged wholesale, so every other page's Page List position is also
unchanged. -/
theorem crop_frame_effect (s : SessionState) (p : Nat) (img : Image)
    (s2 : SessionState) (hp : s.selectedPage = some p)
    (hcb : p < s.croppedImages.length) (hib : p < s.pageImages.length)
    (hres : handleCrop s img = Except.ok s2) :
    s2.croppedImages.getD p none = some img ∧
    s2.pageImages[p]? = some img ∧
    (∀ q, q ≠ p →
      s2.pageImages[q]? = s.pageImages[q]? ∧
      s2.croppedImages.getD q none = s.croppedImages.getD q none ∧
      s2.rotationAngles.getD q 0 = s.rotationAngles.getD q 0) ∧
    s2.rotationAngles = s.rotationAngles ∧
    s2.pages = s.pages ∧
    s2.selectedPage = s.selectedPage := by
  simp only [handleCrop, hp, Except.ok.injEq] at hres
  subst hres
  refine ⟨?_, ?_, fun q hq => ⟨?_, ?_, rfl⟩, rfl, rfl, hp.symm⟩
  · simp [List.getD_eq_getElem?_getD, List.getElem?_set_self hcb]
  · simp [List.getElem?_set_self hib]
  · simp [List.getElem?_set_ne (Ne.symm hq)]
  · simp [List.getD_eq_getElem?_getD, List.getElem?_set_ne (Ne.symm hq)]

/-- Witness for C8 at the concrete state sSel0 (page 0 selected, prior
override imgC on page 0), cropping to imgD and landing in sAfterCrop. -/
theorem crop_frame_effect_witness :
    sAfterCrop.croppedImages.getD 0 none = some imgD ∧
    sAfterCrop.pageImages[1]? = sSel0.pageImages[1]? ∧
    sAfterCrop.rotationAngles = sSel0.rotationAngles ∧
    sAfterCrop.pages = sSel0.pages :=
  have h := crop_frame_effect sSel0 0 imgD sAfterCrop rfl (by decide) (by decide) rfl
  ⟨h.1, (h.2.2.1 1 (by decide)).1, h.2.2.2.1, h.2.2.2.2.1⟩

/-- C10 (confirmed): immediately after cropping selected page p to a new
raster, the displayed raster of p equals the crop override of p (both are
the new raster), the source image a subsequent crop would read — the
Cropper src, `pageImages[selectedPage]` — is that override rather than the
original render, the original render is referenced neither by the Raster
Cache entry nor by the override of p, and neither reordering nor rotating
(the only other non-load operations) ever writes the Raster Cache or the
overrides, so the original cannot be restored without reloading. -/
theorem crop_override_displayed (s : SessionState) (p : Nat) (img : Image)
    (s2 : SessionState) (hp : s.selectedPage = some p)
    (hib : p < s.pageImages.length) (hcb : p < s.croppedImages.length)
    (hres : handleCrop s img = Except.ok s2) :
    s2.pageImages[p]? = some img ∧
    s2.croppedImages.getD p none = some img ∧
    cropSource s2 = some img ∧
    (∀ orig, s.pageImages[p]? = some orig → orig ≠ img →
      s2.pageImages[p]? ≠ some orig ∧ s2.croppedImages.getD p none ≠ some orig) ∧
    (∀ srcIdx d, (onDragEnd s2 srcIdx d).pageImages = s2.pageImages ∧
      (onDragEnd s2 srcIdx d).croppedImages = s2.croppedImages) ∧
    (∀ delta, (rotateSelectedPage s2 delta).pageImages = s2.pageImages ∧
      (rotateSelectedPage s2 delta).croppedImages = s2.croppedImages) := by
  simp only [handleCrop, hp, Except.ok.injEq] at hres
  subst hres
  refine ⟨?_, ?_, ?_, fun orig horig hne => ⟨?_, ?_⟩, fun srcIdx d => ⟨?_, ?_⟩,
    fun delta => ⟨?_, ?_⟩⟩
  · simp [List.getElem?_set_self hib]
  · simp [List.getD_eq_getElem?_getD, List.getElem?_set_self hcb]
  · simp [cropSource, hp, List.getElem?_set_self hib]
  · simp [List.getElem?_set_self hib, hne.symm]
  · simp [List.getD_eq_getElem?_getD, List.getElem?_set_self hcb, hne.symm]
  · cases d <;> rfl
  · cases d <;> rfl
  · unfold rotateSelectedPage
    cases h : SessionState.selectedPage _ <;> rfl
  · unfold rotateSelectedPage
    cases h : SessionState.selectedPage _ <;> rfl

/-- Witness for C10 at the concrete state sSel0, cropping page 0 (original
render imgA) to imgD and landing in sAfterCrop. -/
theorem crop_override_displayed_witness :
    sAfterCrop.pageImages[0]? = some imgD ∧
    cropSource sAfterCrop = some imgD ∧
    sAfterCrop.pageImages[0]? ≠ some imgA ∧
    sAfterCrop.croppedImages.getD 0 none ≠ some imgA :=
  have h := crop_override_displayed sSel0 0 imgD sAfterCrop rfl (by decide)
    (by decide) rfl
  have hor := h.2.2.2.1 imgA (by decide) (by decide)
  ⟨h.1, h.2.2.1, hor.1, hor.2⟩

/-- C4 (confirmed): for valid source and destination positions, onDragEnd
removes the entry at the source position and reinserts it at the
destination position, so the resulting Page List is a permutation of the
old one with unchanged length and carries the moved identifier at the
destination position; a cancelled drag (no destination) leaves the state
unchanged. -/
theorem movePage_contract (s : SessionState) (srcIdx dstIdx : Nat)
    (hs : srcIdx < s.pages.length) (hd : dstIdx < s.pages.length) :
    ((onDragEnd s srcIdx (some dstIdx)).pages).Perm s.pages ∧
    (onDragEnd s srcIdx (some dstIdx)).pages.length = s.pages.length ∧
    (onDragEnd s srcIdx (some dstIdx)).pages.getD dstIdx 0 = s.pages.getD srcIdx 0 ∧
    onDragEnd s srcIdx none = s := by
  have hget : s.pages.getD srcIdx 0 = s.pages[srcIdx] := by
    simp [List.getD_eq_getElem?_getD, List.getElem?_eq_getElem hs]
  have hlen1 : (s.pages.eraseIdx srcIdx).length = s.pages.length - 1 :=
    List.length_eraseIdx_of_lt hs
  have hdle : dstIdx ≤ (s.pages.eraseIdx srcIdx).length := by omega
  have hpages : (onDragEnd s srcIdx (some dstIdx)).pages
      = (s.pages.eraseIdx srcIdx).insertIdx dstIdx s.pages[srcIdx] := by
    simp [onDragEnd, List.getD_eq_getElem?_getD, List.getElem?_eq_getElem hs]
  have hlen2 : ((s.pages.eraseIdx srcIdx).insertIdx dstIdx s.pages[srcIdx]).length
      = s.pages.length := by
    rw [List.length_insertIdx _ _ hdle]
    omega
  refine ⟨?_, ?_, ?_, rfl⟩
  · rw [hpages]
    refine (List.perm_insertIdx _ _ hdle).trans ?_
    exact ((List.erase_getElem hs).cons _).symm.trans
      (List.perm_cons_erase (List.getElem_mem hs)).symm
  · rw [hpages, hlen2]
  · have hlt : dstIdx
        < ((s.pages.eraseIdx srcIdx).insertIdx dstIdx s.pages[srcIdx]).length := by
      omega
    rw [hpages, hget, List.getD_eq_getElem?_getD, List.getElem?_eq_getElem hlt,
      List.getElem_insertIdx_self _ _ _ hdle]
    rfl

/-- Witness for C4 at the concrete state sPre, moving position 0 to
position 2. -/
theorem movePage_contract_witness :
    ((onDragEnd sPre 0 (some 2)).pages).Perm sPre.pages ∧
    (onDragEnd sPre 0 (some 2)).pages.length = sPre.pages.length ∧
    (onDragEnd sPre 0 (some 2)).pages.getD 2 0 = sPre.pages.getD 0 0 ∧
    onDragEnd sPre 0 none = sPre :=
  movePage_contract sPre 0 2 (by decide) (by decide)

/-- Effect of one rotateSelectedPage call on the selected, in-bounds entry
of rotationAngles, together with preservation of the selection and of the
array length; shared by the proofs below. -/
theorem rotate_step (s : SessionState) (delta : Int) (p : Nat)
    (hp : s.selectedPage = some p) (hlen : p < s.rotationAngles.length) :
    (rotateSelectedPage s delta).rotationAngles.getD p 0 =
      (s.rotationAngles.getD p 0 + delta).tmod 360 ∧
    (rotateSelectedPage s delta).selectedPage = some p ∧
    (rotateSelectedPage s delta).rotationAngles.length = s.rotationAngles.length := by
  refine ⟨?_, ?_, ?_⟩
  · simp [rotateSelectedPage, hp, List.getD_eq_getElem?_getD,
      List.getElem?_set_self hlen]
  · simp [rotateSelectedPage, hp]
  · simp [rotateSelectedPage, hp]

/-- C9 (counterexample): in the reachable session obtained by loading a
1-page document, selecting page 0 and rotating by -90, the stored angle is
-90; four further rotate(90) calls leave the stored angle at 270, not at
the original -90, because the JavaScript `%` keeps the sign of its left
operand. -/
theorem rotate_four_counterexample :
    (rotateSelectedPage (selectPage (handleFileUpload sEmpty
        (some ⟨some 1, some [imgA]⟩)) 0) (-90)).rotationAngles.getD 0 0 = -90 ∧
    (rotateSelectedPage (rotateSelectedPage (rotateSelectedPage (rotateSelectedPage
        (rotateSelectedPage (selectPage (handleFileUpload sEmpty
          (some ⟨some 1, some [imgA]⟩)) 0) (-90)) 90) 90) 90) 90).rotationAngles.getD 0 0
      = 270 ∧
    (270 : Int) ≠ -90 := by decide

/-- C9 (amended): with page p selected and in bounds, four rotate(90)
calls return the stored angle to a value congruent to the original angle
modulo 360; the stored value itself is restored exactly when the original
angle lies in [0, 360) — in particular whenever only nonnegative deltas
were ever applied — but not in general, since the JavaScript `%` can store
negative angles. -/
theorem rotate_four_times (s : SessionState) (p : Nat)
    (hp : s.selectedPage = some p) (hlen : p < s.rotationAngles.length) :
    (rotateSelectedPage (rotateSelectedPage (rotateSelectedPage
        (rotateSelectedPage s 90) 90) 90) 90).rotationAngles.getD p 0 % 360
      = s.rotationAngles.getD p 0 % 360 ∧
    (0 ≤ s.rotationAngles.getD p 0 → s.rotationAngles.getD p 0 < 360 →
      (rotateSelectedPage (rotateSelectedPage (rotateSelectedPage
          (rotateSelectedPage s 90) 90) 90) 90).rotationAngles.getD p 0
        = s.rotationAngles.getD p 0) := by
  obtain ⟨h1, hs1, hl1⟩ := rotate_step s 90 p hp hlen
  obtain ⟨h2, hs2, hl2⟩ := rotate_step _ 90 p hs1 (by omega)
  obtain ⟨h3, hs3, hl3⟩ := rotate_step _ 90 p hs2 (by omega)
  obtain ⟨h4, hs4, hl4⟩ := rotate_step _ 90 p hs3 (by omega)
  rw [h4, h3, h2, h1]
  set a := s.rotationAngles.getD p 0 with ha
  constructor
  · have d1 := Int.tmod_def (a + 90) 360
    have d2 := Int.tmod_def ((a + 90).tmod 360 + 90) 360
    have d3 := Int.tmod_def (((a + 90).tmod 360 + 90).tmod 360 + 90) 360
    have d4 := Int.tmod_def ((((a + 90).tmod 360 + 90).tmod 360 + 90).tmod 360 + 90) 360
    omega
  · intro h0 hlt
    have e1 : (a + 90).tmod 360 = (a + 90) % 360 :=
      Int.tmod_eq_emod (by omega) (by omega)
    have n1 : 0 ≤ (a + 90) % 360 := Int.emod_nonneg _ (by omega)
    rw [e1]
    have e2 : ((a + 90) % 360 + 90).tmod 360 = ((a + 90) % 360 + 90) % 360 :=
      Int.tmod_eq_emod (by omega) (by omega)
    have n2 : 0 ≤ ((a + 90) % 360 + 90) % 360 := Int.emod_nonneg _ (by omega)
    rw [e2]
    have e3 : (((a + 90) % 360 + 90) % 360 + 90).tmod 360
        = (((a + 90) % 360 + 90) % 360 + 90) % 360 :=
      Int.tmod_eq_emod (by omega) (by omega)
    have n3 : 0 ≤ (((a + 90) % 360 + 90) % 360 + 90) % 360 := Int.emod_nonneg _ (by omega)
    rw [e3]
    have e4 : ((((a + 90) % 360 + 90) % 360 + 90) % 360 + 90).tmod 360
        = ((((a + 90) % 360 + 90) % 360 + 90) % 360 + 90) % 360 :=
      Int.tmod_eq_emod (by omega) (by omega)
    rw [e4]
    omega

/-- Witness for the amended C9 theorem at the concrete state sRot
(selected page 0, stored angle 45). -/
theorem rotate_four_times_witness :
    (rotateSelectedPage (rotateSelectedPage (rotateSelectedPage
        (rotateSelectedPage sRot 90) 90) 90) 90).rotationAngles.getD 0 0 % 360
      = sRot.rotationAngles.getD 0 0 % 360 ∧
    (rotateSelectedPage (rotateSelectedPage (rotateSelectedPage
        (rotateSelectedPage sRot 90) 90) 90) 90).rotationAngles.getD 0 0
      = sRot.rotationAngles.getD 0 0 :=
  have h := rotate_four_times sRot 0 rfl (by decide)
  ⟨h.1, h.2 (by decide) (by decide)⟩

/-- When the effective raster of `pid` exists and is readable, the export
step for `pid` succeeds and returns `builtPage s pid`. -/
theorem buildPage_ok (s : SessionState) (pid : Nat) (h : rasterBad s pid = false) :
    buildPage s pid = Except.ok (builtPage s pid) := by
  cases he : effectiveRaster s pid with
  | none => simp [rasterBad, he] at h
  | some img =>
    have hr : img.readable = true := by simpa [rasterBad, he] using h
    simp [buildPage, builtPage, he, hr]

/-- When every Page List entry has a readable effective raster, the export
loop succeeds and returns the built pages in Page List order. -/
theorem exportPages_ok (s : SessionState) (l : List Nat)
    (h : ∀ pid ∈ l, rasterBad s pid = false) :
    exportPages s l = Except.ok (l.map (builtPage s)) := by
  induction l with
  | nil => rfl
  | cons a t ih =>
    have hb := buildPage_ok s a (h a (List.mem_cons_self a t))
    have ht := ih fun pid hm => h pid (List.mem_cons_of_mem a hm)
    simp [exportPages, hb, ht]

/-- When the effective raster of `pid` is missing or unreadable, the
export step for `pid` fails. -/
theorem buildPage_error (s : SessionState) (pid : Nat) (h : rasterBad s pid = true) :
    ∃ e, buildPage s pid = Except.error e := by
  cases he : effectiveRaster s pid with
  | none => exact ⟨"fetch failed: raster missing", by simp [buildPage, he]⟩
  | some img =>
    have hr : img.readable = false := by simpa [rasterBad, he] using h
    exact ⟨"embedPng failed: raster unreadable", by simp [buildPage, he, hr]⟩

/-- When some Page List entry has a missing or unreadable effective
raster, the export loop fails. -/
theorem exportPages_error (s : SessionState) (l : List Nat) (pid : Nat)
    (hm : pid ∈ l) (h : rasterBad s pid = true) :
    ∃ e, exportPages s l = Except.error e := by
  induction l with
  | nil => cases hm
  | cons a t ih =>
    by_cases hab : rasterBad s a = true
    · obtain ⟨e, he⟩ := buildPage_error s a hab
      exact ⟨e, by simp [exportPages, he]⟩
    · have ha : a ≠ pid := fun hh => hab (hh ▸ h)
      have hmt : pid ∈ t := by
        cases List.mem_cons.mp hm with
        | inl hh => exact absurd hh.symm ha
        | inr hh => exact hh
      obtain ⟨e, he⟩ := ih hmt
      cases hba : buildPage s a with
      | error e2 => exact ⟨e2, by simp [exportPages, hba]⟩
      | ok pg => exact ⟨e, by simp [exportPages, hba, he]⟩

/-- C6 (confirmed): when some Page List entry's effective raster is
missing or unreadable, the export fails with an error and the download
branch is never reached: no output is offered to the user. -/
theorem export_all_or_nothing (s : SessionState)
    (h : ∃ i, i < s.pages.length ∧ rasterBad s (s.pages.getD i 0) = true) :
    (∃ e, handleRearrange s = Except.error e) ∧ exportOffered s = false := by
  obtain ⟨i, hi, hbad⟩ := h
  have hmem : s.pages.getD i 0 ∈ s.pages := by
    rw [List.getD_eq_getElem?_getD, List.getElem?_eq_getElem hi]
    exact List.getElem_mem hi
  cases hdoc : s.pdfDoc with
  | none =>
    exact ⟨⟨"no document loaded", by simp [handleRearrange, hdoc]⟩,
      by simp [exportOffered, handleRearrange, hdoc]⟩
  | some n =>
    obtain ⟨e, he⟩ := exportPages_error s s.pages _ hmem hbad
    exact ⟨⟨e, by simp [handleRearrange, hdoc, he]⟩,
      by simp [exportOffered, handleRearrange, hdoc, he]⟩

/-- Witness for C6 at the concrete state sMissing, whose Page List entry 1
has no raster at all. -/
theorem export_all_or_nothing_witness :
    (∃ e, handleRearrange sMissing = Except.error e) ∧
    exportOffered sMissing = false :=
  export_all_or_nothing sMissing ⟨1, by decide, by decide⟩

/-- C1 (confirmed): with a document loaded and every Page List entry
backed by a readable effective raster, export succeeds and the output has
one page per Page List entry, in Page List order; the i-th output page is
built from the effective raster (crop override first, original render
otherwise) of the identifier at Page List position i, sized to that
raster's embedded dimensions, with the raster drawn at the origin and a
rotation equal to that page's stored angle times π / 180 radians. -/
theorem export_contract (s : SessionState) (n : Nat) (hdoc : s.pdfDoc = some n)
    (hwf : ∀ pid ∈ s.pages, rasterBad s pid = false) :
    ∃ out, handleRearrange s = Except.ok out ∧
      out.length = s.pages.length ∧
      ∀ i, i < s.pages.length →
        ∃ img, effectiveRaster s (s.pages.getD i 0) = some img ∧
          out.getD i default =
            { width := img.width
              height := img.height
              image := img
              x := 0
              y := 0
              rotateDeg := s.rotationAngles.getD (s.pages.getD i 0) 0 } ∧
          ((out.getD i default).rotateDeg : ℝ) * Real.pi / 180 =
            (s.rotationAngles.getD (s.pages.getD i 0) 0 : ℝ) * Real.pi / 180 := by
  refine ⟨s.pages.map (builtPage s), ?_, by simp, ?_⟩
  · simp [handleRearrange, hdoc, exportPages_ok s s.pages hwf]
  · intro i hi
    have hpid : s.pages.getD i 0 = s.pages[i] := by
      simp [List.getD_eq_getElem?_getD, List.getElem?_eq_getElem hi]
    have hout : (s.pages.map (builtPage s)).getD i default = builtPage s s.pages[i] := by
      simp [List.getD_eq_getElem?_getD, List.getElem?_eq_getElem hi]
    have hb := hwf s.pages[i] (List.getElem_mem hi)
    cases he : effectiveRaster s s.pages[i] with
    | none => simp [rasterBad, he] at hb
    | some img =>
      refine ⟨img, by rw [hpid]; exact he, ?_, ?_⟩
      · rw [hout, hpid]
        simp [builtPage, he]
      · rw [hout, hpid]
        simp [builtPage, he]

/-- Witness for C1 at the concrete state sExport (2-page document, Page
List [1, 0], crop override on page 1, rotation 90 on page 1). -/
theorem export_contract_witness :
    ∃ out, handleRearrange sExport = Except.ok out ∧
      out.length = sExport.pages.length ∧
      ∀ i, i < sExport.pages.length →
        ∃ img, effectiveRaster sExport (sExport.pages.getD i 0) = some img ∧
          out.getD i default =
            { width := img.width
              height := img.height
              image := img
              x := 0
              y := 0
              rotateDeg := sExport.rotationAngles.getD (sExport.pages.getD i 0) 0 } ∧
          ((out.getD i default).rotateDeg : ℝ) * Real.pi / 180 =
            (sExport.rotationAngles.getD (sExport.pages.getD i 0) 0 : ℝ) * Real.pi / 180 :=
  export_contract sExport 2 rfl (by decide)

end PdfRearrange
